import Mathlib

/-!
Verification of the capacity planning service.

This file gives a shallow embedding, in Lean 4, of the two core modules of the
capacity planning repository:

* `model_service.py` — the autoregressive forecasting pipeline
  (`ModelService._prepare_features`, `ModelService.forecast`); and
* `capacity_planner.py` — the capacity decision engine
  (`CapacityPlanner.get_recommendations`, `CapacityPlanner.analyze`,
  `CapacityPlanner._assess_risk`, `CapacityPlanner._generate_scenarios`,
  `CapacityPlanner._generate_message`).

Modelling conventions:

* Python floats are modelled as rationals (`ℚ`); all quantities involved are
  produced by field arithmetic on the inputs, so `ℚ` captures the intended
  real-number semantics of the formulas.
* Timestamps are modelled as integers counting hours (the code only ever uses
  hourly granularity: it steps timestamps by whole hours and extracts
  `hour` and `dayofweek`, which we model as residues of the hour count).
* Python `int(x)` truncates toward zero; it is modelled by `pyInt`.
* Fallible code (raising exceptions) is modelled with `Except String` /
  `Option`; an unguarded division by zero is modelled as the error
  `"ZeroDivisionError"`, matching the exception Python raises.
* The trained LSTM model and the two fitted scalers are external black boxes
  (loaded from disk at startup); they are modelled as function-valued fields
  of the service state, universally quantified in the theorems.
* The synthetic historical data generator (`_generate_historical_data`) uses
  unseeded randomness, so the seeded history is passed to `forecast` as an
  explicit parameter here; all theorems hold for an arbitrary history.
-/

namespace CapacityPlanning

/-- Python `int(x)` applied to a float: truncation toward zero.
For a rational `q = num/den` (with `den > 0`) this is `num` t-divided by
`den`. -/
def pyInt (q : ℚ) : ℤ := q.num.tdiv q.den

/-- Python `max(list)` for a nonempty list of floats (the embedding returns
`0` on `[]`; every use in the source is guarded by a nonemptiness check). -/
def listMax : List ℚ → ℚ
  | [] => 0
  | h :: t => t.foldl max h

/-- Python `min(list)` for a nonempty list of floats (same convention on `[]`
as `listMax`). -/
def listMin : List ℚ → ℚ
  | [] => 0
  | h :: t => t.foldl min h

/-- `np.mean(list)`: the sum divided by the length (only used on nonempty
lists in the source). -/
def listMean (l : List ℚ) : ℚ := l.sum / l.length

/-- One point of a forecast: `{'timestamp': ..., 'predicted_load': ...}`.
The timestamp is an absolute hour count. -/
structure ForecastPoint where
  timestamp : ℤ
  predictedLoad : ℚ
deriving DecidableEq, Repr

/-! ## model_service.py -/

/-- `timestamp.hour` for an hourly timestamp modelled as an hour count. -/
def hourOf (t : ℤ) : ℤ := t.emod 24

/-- `timestamp.dayofweek` for an hourly timestamp modelled as an hour
count. -/
def dayOfWeekOf (t : ℤ) : ℤ := (t.ediv 24).emod 7

/-- The two pre-fit scalers of `ModelService` (`target_scaler`,
`time_scaler`), plus the inverse transform used on predictions.  They are
opaque invertible transforms loaded from disk; we model them as arbitrary
functions.  `targetInverse` is the scalar function computed by lines 205-207
of `model_service.py`: the prediction is placed in column 0 of a zero row and
column 0 of `target_scaler.inverse_transform` of it is read back. -/
structure Scalers where
  targetTransform : ℚ → ℚ → ℚ → ℚ × ℚ × ℚ
  timeTransform : ℚ → ℚ → ℚ × ℚ
  targetInverse : ℚ → ℚ

/-- One scaled feature vector
`[transaction_count, lag_24, lag_168, hour, dayofweek]` as built by
`ModelService._prepare_features`. -/
structure Feature where
  currentCount : ℚ
  lag24 : ℚ
  lag168 : ℚ
  hour : ℚ
  dayOfWeek : ℚ
deriving DecidableEq, Repr

/-- The raw (unscaled) magnitude features extracted from the history by
`_prepare_features`:
`current_count = historical_counts[-1]`,
`lag_24 = historical_counts[-24] if len(historical_counts) >= 24 else historical_counts[-1]`,
`lag_168 = historical_counts[-168] if len(historical_counts) >= 168 else historical_counts[-1]`.
Returns `none` when the history is empty (Python raises `IndexError` on
`historical_counts[-1]`). -/
def rawLagFeatures (hist : List ℚ) : Option (ℚ × ℚ × ℚ) :=
  match hist.getLast? with
  | none => none
  | some last =>
    let lag24 := if 24 ≤ hist.length then hist.getD (hist.length - 24) 0 else last
    let lag168 := if 168 ≤ hist.length then hist.getD (hist.length - 168) 0 else last
    some (last, lag24, lag168)

/-- `ModelService._prepare_features(timestamp, historical_counts)`:
raw magnitude features from the history, `hour`/`dayofweek` from the
timestamp, each group passed through its scaler, concatenated. -/
def prepareFeatures (s : Scalers) (t : ℤ) (hist : List ℚ) : Option Feature :=
  match rawLagFeatures hist with
  | none => none
  | some (cur, l24, l168) =>
    let (sc, sl24, sl168) := s.targetTransform cur l24 l168
    let (sh, sd) := s.timeTransform (hourOf t) (dayOfWeekOf t)
    some ⟨sc, sl24, sl168, sh, sd⟩

/-- `self.seq_length` — fixed to 48 in `ModelService.__init__`. -/
def seqLength : ℕ := 48

/-- The state of a `ModelService`: the loaded-model flag, the scaler pair and
the black-box model (`AttentionLSTM`), which maps a sequence of feature
vectors to one normalized scalar prediction. -/
structure ModelService where
  isModelLoaded : Bool
  scalers : Scalers
  predict : List Feature → ℚ

/-- The feature vector the forecast loop builds for window position `j`
(`0 ≤ j < 48`) of the model input sequence, at forecast time `t` with the
current context:
`seq_time = forecast_time - timedelta(hours=self.seq_length - j)` and then
`self._prepare_features(seq_time, context)` — note the source passes the
whole `context`, not a window ending at position `j`. -/
def seqFeatureAt (s : Scalers) (t : ℤ) (context : List ℚ) (j : ℕ) : Option Feature :=
  prepareFeatures s (t - ((seqLength : ℤ) - (j : ℤ))) context

/-- Sequence all the `Option` results of mapping `f`, failing if any fails
(the effect of a Python loop of fallible calls appending to a list). -/
def optionMapList (f : α → Option β) : List α → Option (List β)
  | [] => some []
  | a :: l =>
    match f a, optionMapList f l with
    | some b, some bs => some (b :: bs)
    | _, _ => none

/-- One iteration of the autoregressive loop in `ModelService.forecast`
(lines 178-214): prepare the (unused) single feature vector for the forecast
time, build the 48 per-position feature vectors, run the model, inverse
transform and clamp at 0.  Lines 185-189 build a `padded_context` that the
source never uses afterwards (dead code), so it is omitted; its only
observable effect, an `IndexError` on an empty context, coincides with the
failure of `prepareFeatures`. -/
def forecastStep (svc : ModelService) (t : ℤ) (context : List ℚ) : Option ℚ :=
  match prepareFeatures svc.scalers t context with
  | none => none
  | some _ =>
    match optionMapList (fun j => seqFeatureAt svc.scalers t context j) (List.range seqLength) with
    | none => none
    | some seqFeats =>
      let pred := svc.predict seqFeats
      some (max 0 (svc.scalers.targetInverse pred))

/-- The `for i in range(hours_ahead)` loop of `ModelService.forecast`:
`n` iterations remain, `i` is the current step index, `context` the current
(history plus previous predictions) buffer.  Each emitted prediction is
appended to the context before the next step. -/
def forecastAux (svc : ModelService) (startTs : ℤ) : ℕ → ℕ → List ℚ → Option (List ForecastPoint)
  | 0, _, _ => some []
  | n + 1, i, context =>
    let t := startTs + (i : ℤ)
    match forecastStep svc t context with
    | none => none
    | some v =>
      match forecastAux svc startTs n (i + 1) (context ++ [v]) with
      | none => none
      | some rest => some (⟨t, v⟩ :: rest)

/-- The dictionary returned by `ModelService.forecast`. -/
structure ForecastResult where
  forecast : List ForecastPoint
  hoursAhead : ℕ
  startTimestamp : ℤ
deriving DecidableEq, Repr

/-- `ModelService.forecast(hours_ahead, ..., start_timestamp)`.  The start
timestamp is already resolved (the Python default `pd.Timestamp.now()` is a
wall-clock input); the seeded history stands for the result of
`_generate_historical_data`, whose unseeded randomness is external to this
embedding.  Raises (returns an error) when the model is not loaded, and
propagates the `IndexError` of an empty history. -/
def ModelService.forecast (svc : ModelService) (hoursAhead : ℕ)
    (historicalCounts : List ℚ) (startTimestamp : ℤ) : Except String ForecastResult :=
  if svc.isModelLoaded = false then
    Except.error "Model not loaded. Please ensure model files exist."
  else
    match forecastAux svc startTimestamp hoursAhead 0 historicalCounts with
    | none => Except.error "IndexError"
    | some pts => Except.ok ⟨pts, hoursAhead, startTimestamp⟩

/-- Projection of a feature vector onto its magnitude (lag) components. -/
def featLags (f : Feature) : ℚ × ℚ × ℚ := (f.currentCount, f.lag24, f.lag168)

/-- Projection of a feature vector onto its time components. -/
def featTime (f : Feature) : ℚ × ℚ := (f.hour, f.dayOfWeek)

/-- Modelled from the spec (§4.4), not from the source: the feature vector
for window position `j` re-derived from that position's place in the sliding
window — the Feature Encoder applied at the position's timestamp to the
history preceding that position, i.e. the context with its trailing
`47 - j` values (which lie at strictly later hours) removed.  Used to compare
the source's per-position encoding against the spec's description of it. -/
def slidingWindowFeatureAt (s : Scalers) (t : ℤ) (context : List ℚ) (j : ℕ) : Option Feature :=
  prepareFeatures s (t - ((seqLength : ℤ) - (j : ℤ)))
    (context.take (context.length - (seqLength - 1 - j)))

/-- Identity scalers: a concrete instantiation of the black-box scaler pair,
used to evaluate the embedding on concrete inputs. -/
def idScalers : Scalers := ⟨fun a b c => (a, b, c), fun h d => (h, d), fun x => x⟩

/-- A loaded service whose black-box model always predicts the normalized
value `0`. -/
def zeroService : ModelService := ⟨true, idScalers, fun _ => 0⟩

/-- A loaded service whose black-box model always predicts the negative
normalized value `-5`. -/
def negService : ModelService := ⟨true, idScalers, fun _ => -5⟩

/-! ## capacity_planner.py -/

/-- The list `[f['predicted_load'] for f in forecast]`. -/
def predictedLoads (forecast : List ForecastPoint) : List ℚ :=
  forecast.map ForecastPoint.predictedLoad

/-- `max_utilization = max_predicted / current_capacity if current_capacity > 0 else 0`
(line 40 of `capacity_planner.py`). -/
def maxUtilizationOf (forecast : List ForecastPoint) (currentCapacity : ℚ) : ℚ :=
  if 0 < currentCapacity then listMax (predictedLoads forecast) / currentCapacity else 0

/-- `avg_utilization = avg_predicted / current_capacity if current_capacity > 0 else 0`
(line 41 of `capacity_planner.py`). -/
def avgUtilizationOf (forecast : List ForecastPoint) (currentCapacity : ℚ) : ℚ :=
  if 0 < currentCapacity then listMean (predictedLoads forecast) / currentCapacity else 0

/-- The parameters interpolated into the human-readable message by
`CapacityPlanner._generate_message`.  The natural-language template text is a
presentation concern; the embedding keeps exactly the numbers the source
computes and interpolates (per branch), including the guarded
change-percent. -/
inductive Message where
  | scaleUp (change changePercent target utilizationPercent : ℚ)
  | scaleDown (change changePercent target : ℚ)
  | maintainMsg (current utilizationPercent : ℚ)
deriving DecidableEq, Repr

/-- `CapacityPlanner._generate_message(action, urgency, utilization, recommended, current)`.
The `urgency` argument is accepted and unused, as in the source. -/
def generateMessage (action : String) (_urgency : String)
    (utilization recommended current : ℚ) : Message :=
  if action = "scale_up" then
    Message.scaleUp (recommended - current)
      (if 0 < current then (recommended - current) / current * 100 else 0)
      recommended (utilization * 100)
  else if action = "scale_down" then
    Message.scaleDown (current - recommended)
      (if 0 < current then (current - recommended) / current * 100 else 0)
      recommended
  else
    Message.maintainMsg current (utilization * 100)

/-- The `metrics` sub-dictionary of a recommendation. -/
structure Metrics where
  maxPredictedLoad : ℚ
  avgPredictedLoad : ℚ
  minPredictedLoad : ℚ
  maxUtilization : ℚ
  avgUtilization : ℚ
deriving DecidableEq, Repr

/-- The dictionary returned by `CapacityPlanner.get_recommendations` on
success. -/
structure Recommendation where
  action : String
  urgency : String
  currentCapacity : ℚ
  recommendedCapacity : ℚ
  capacityChange : ℚ
  capacityChangePercent : ℚ
  metrics : Metrics
  peakHours : List ForecastPoint
  message : Message
deriving DecidableEq, Repr

/-- `CapacityPlanner.get_recommendations(forecast, current_capacity, scaling_threshold)`.
Returns the error dictionary `{'error': 'No forecast data provided'}` on an
empty forecast; raises `ZeroDivisionError` if a scaling branch divides by a
zero threshold; otherwise returns the recommendation dictionary. -/
def getRecommendations (forecast : List ForecastPoint)
    (currentCapacity : ℚ) (scalingThreshold : ℚ) : Except String Recommendation :=
  if forecast.isEmpty then Except.error "No forecast data provided"
  else
    let loads := predictedLoads forecast
    let maxPredicted := listMax loads
    let avgPredicted := listMean loads
    let minPredicted := listMin loads
    let maxUtilization := maxUtilizationOf forecast currentCapacity
    let avgUtilization := avgUtilizationOf forecast currentCapacity
    let branch : Except String (String × String × ℚ) :=
      if maxUtilization ≥ scalingThreshold then
        if scalingThreshold = 0 then Except.error "ZeroDivisionError"
        else
          Except.ok ("scale_up",
            if maxUtilization ≥ 95/100 then "high" else "medium",
            ((pyInt (maxPredicted / scalingThreshold * (11/10)) : ℤ) : ℚ))
      else if avgUtilization < 3/10 then
        if scalingThreshold = 0 then Except.error "ZeroDivisionError"
        else
          Except.ok ("scale_down", "low",
            ((pyInt (avgPredicted / scalingThreshold * (12/10)) : ℤ) : ℚ))
      else
        Except.ok ("maintain", "low", currentCapacity)
    match branch with
    | Except.error e => Except.error e
    | Except.ok (action, urgency, recommendedCapacity) =>
      Except.ok
        { action := action
          urgency := urgency
          currentCapacity := currentCapacity
          recommendedCapacity := recommendedCapacity
          capacityChange := recommendedCapacity - currentCapacity
          capacityChangePercent :=
            if 0 < currentCapacity then
              (recommendedCapacity - currentCapacity) / currentCapacity * 100
            else 0
          metrics := ⟨maxPredicted, avgPredicted, minPredicted, maxUtilization, avgUtilization⟩
          peakHours := (forecast.filter (fun f => f.predictedLoad ≥ maxPredicted * (9/10))).take 10
          message := generateMessage action urgency maxUtilization recommendedCapacity currentCapacity }

/-- `CapacityPlanner._assess_risk(critical_hours, over_capacity_hours, total_hours)`. -/
def assessRisk (criticalHours overCapacityHours totalHours : ℕ) : String :=
  let criticalPct : ℚ := if 0 < totalHours then (criticalHours : ℚ) / totalHours else 0
  let overCapacityPct : ℚ := if 0 < totalHours then (overCapacityHours : ℚ) / totalHours else 0
  if criticalPct > 1/10 then "critical"
  else if overCapacityPct > 2/10 then "high"
  else if overCapacityPct > 1/20 then "medium"
  else "low"

/-- The ordering `low < medium < high < critical` on risk levels, as a rank. -/
def riskRank (level : String) : ℕ :=
  if level = "critical" then 3
  else if level = "high" then 2
  else if level = "medium" then 1
  else 0

/-- One scaling scenario (`capacity`, `description`, `cost_impact`). -/
structure Scenario where
  capacity : ℤ
  description : String
  costImpact : String
deriving DecidableEq, Repr

/-- The four named scenarios returned by
`CapacityPlanner._generate_scenarios`. -/
structure Scenarios where
  conservative : Scenario
  balanced : Scenario
  aggressive : Scenario
  averageBased : Scenario
deriving DecidableEq, Repr

/-- `CapacityPlanner._generate_scenarios(forecast, current_capacity, scaling_threshold)`.
The `current_capacity` argument is accepted and unused, as in the source.
`max()` of an empty list raises `ValueError`; a zero threshold raises
`ZeroDivisionError`. -/
def generateScenarios (forecast : List ForecastPoint)
    (_currentCapacity : ℚ) (scalingThreshold : ℚ) : Except String Scenarios :=
  if forecast.isEmpty then Except.error "ValueError"
  else
    let loads := predictedLoads forecast
    let maxLoad := listMax loads
    let avgLoad := listMean loads
    if scalingThreshold = 0 then Except.error "ZeroDivisionError"
    else
      Except.ok
        { conservative := ⟨pyInt (maxLoad / scalingThreshold * (12/10)), "20% buffer above peak load", "high"⟩
          balanced := ⟨pyInt (maxLoad / scalingThreshold * (11/10)), "10% buffer above peak load", "medium"⟩
          aggressive := ⟨pyInt (maxLoad / scalingThreshold), "Exact capacity for peak load", "low"⟩
          averageBased := ⟨pyInt (avgLoad / scalingThreshold * (15/10)), "Capacity based on average load", "low"⟩ }

/-- Keys of a Python dict in insertion order: first occurrence wins. -/
def dedupFirst (l : List ℤ) : List ℤ :=
  l.foldl (fun acc h => if h ∈ acc then acc else acc ++ [h]) []

/-- Python `max(items, key=lambda x: x[1])`: the first pair with maximal
second component (`max` keeps the current element on ties). -/
def argmaxBySnd : List (ℤ × ℚ) → Option (ℤ × ℚ)
  | [] => none
  | h :: t => some (t.foldl (fun best x => if x.2 > best.2 then x else best) h)

/-- Python `min(items, key=lambda x: x[1])`: the first pair with minimal
second component. -/
def argminBySnd : List (ℤ × ℚ) → Option (ℤ × ℚ)
  | [] => none
  | h :: t => some (t.foldl (fun best x => if x.2 < best.2 then x else best) h)

/-- The `summary` sub-dictionary of an analysis. -/
structure AnalysisSummary where
  forecastPeriodHours : ℕ
  currentCapacity : ℚ
  scalingThreshold : ℚ
deriving DecidableEq, Repr

/-- The `load_statistics` sub-dictionary.  `np.std` is an irrational square
root; the embedding keeps its square (the mean squared deviation), from which
the source's value is determined. -/
structure LoadStatistics where
  maxLoad : ℚ
  minLoad : ℚ
  avgLoad : ℚ
  stdLoadSq : ℚ
deriving DecidableEq, Repr

/-- The `utilization_statistics` sub-dictionary. -/
structure UtilizationStatistics where
  maxUtilization : ℚ
  avgUtilization : ℚ
  minUtilization : ℚ
deriving DecidableEq, Repr

/-- The `risk_assessment` sub-dictionary. -/
structure RiskAssessment where
  overCapacityHours : ℕ
  criticalHours : ℕ
  underUtilizedHours : ℕ
  riskLevel : String
deriving DecidableEq, Repr

/-- The `hourly_patterns` sub-dictionary. -/
structure HourlyPatterns where
  peakHour : ℤ
  lowHour : ℤ
  avgLoadByHour : List (ℤ × ℚ)
deriving DecidableEq, Repr

/-- The dictionary returned by `CapacityPlanner.analyze` on success. -/
structure Analysis where
  summary : AnalysisSummary
  loadStatistics : LoadStatistics
  utilizationStatistics : UtilizationStatistics
  riskAssessment : RiskAssessment
  hourlyPatterns : HourlyPatterns
  recommendations : Recommendation
  scalingScenarios : Scenarios
deriving DecidableEq, Repr

/-- `CapacityPlanner.analyze(forecast, current_capacity, scaling_threshold)`.
Unlike `get_recommendations`, the per-point utilization list at line 109
(`[load / current_capacity for load in predicted_loads]`) divides by
`current_capacity` without a guard, so `current_capacity == 0` raises
`ZeroDivisionError`. -/
def analyze (forecast : List ForecastPoint)
    (currentCapacity : ℚ) (scalingThreshold : ℚ) : Except String Analysis :=
  if forecast.isEmpty then Except.error "No forecast data provided"
  else
    let loads := predictedLoads forecast
    let maxLoad := listMax loads
    let minLoad := listMin loads
    let avgLoad := listMean loads
    let stdLoadSq := listMean (loads.map (fun x => (x - avgLoad) ^ 2))
    if currentCapacity = 0 then Except.error "ZeroDivisionError"
    else
      let utilizations := loads.map (fun load => load / currentCapacity)
      let maxUtil := listMax utilizations
      let avgUtil := listMean utilizations
      let minUtil := listMin utilizations
      let overCapacityHours := (utilizations.filter (fun u => u ≥ scalingThreshold)).length
      let criticalHours := (utilizations.filter (fun u => u ≥ 95/100)).length
      let underUtilizedHours := (utilizations.filter (fun u => u < 3/10)).length
      let hoursList := dedupFirst (forecast.map (fun f => hourOf f.timestamp))
      let avgByHour := hoursList.map (fun h =>
        (h, listMean (predictedLoads (forecast.filter (fun f => hourOf f.timestamp = h)))))
      match argmaxBySnd avgByHour, argminBySnd avgByHour with
      | some peak, some low =>
        match getRecommendations forecast currentCapacity scalingThreshold with
        | Except.error e => Except.error e
        | Except.ok recommendations =>
          match generateScenarios forecast currentCapacity scalingThreshold with
          | Except.error e => Except.error e
          | Except.ok scenarios =>
            Except.ok
              { summary := ⟨forecast.length, currentCapacity, scalingThreshold⟩
                loadStatistics := ⟨maxLoad, minLoad, avgLoad, stdLoadSq⟩
                utilizationStatistics := ⟨maxUtil, avgUtil, minUtil⟩
                riskAssessment := ⟨overCapacityHours, criticalHours, underUtilizedHours,
                  assessRisk criticalHours overCapacityHours forecast.length⟩
                hourlyPatterns := ⟨peak.1, low.1, avgByHour⟩
                recommendations := recommendations
                scalingScenarios := scenarios }
      | _, _ => Except.error "ValueError"

/-! ## Helper lemmas -/

/-- Python truncation agrees with the floor on non-negative values. -/
theorem pyInt_eq_floor (q : ℚ) (h : 0 ≤ q) : pyInt q = ⌊q⌋ := by
  have hn : 0 ≤ q.num := Rat.num_nonneg.mpr h
  rw [pyInt, Rat.floor_def, Int.tdiv_eq_ediv hn (by positivity)]

/-- Python truncation is monotone on non-negative values. -/
theorem pyInt_mono (a b : ℚ) (ha : 0 ≤ a) (hab : a ≤ b) : pyInt a ≤ pyInt b := by
  rw [pyInt_eq_floor a ha, pyInt_eq_floor b (le_trans ha hab)]
  exact Int.floor_le_floor hab

/-- On a nonempty history the raw lag extraction succeeds, with the
components given by the source's index arithmetic. -/
theorem rawLagFeatures_of_ne_nil (hist : List ℚ) (h : hist ≠ []) :
    rawLagFeatures hist = some (hist.getLast h,
      if 24 ≤ hist.length then hist.getD (hist.length - 24) 0 else hist.getLast h,
      if 168 ≤ hist.length then hist.getD (hist.length - 168) 0 else hist.getLast h) := by
  rw [rawLagFeatures, List.getLast?_eq_getLast hist h]

/-- On a nonempty history the feature encoder succeeds, and its output is the
scaled raw lag triple together with the scaled time pair of the given
timestamp. -/
theorem prepareFeatures_of_ne_nil (s : Scalers) (t : ℤ) (hist : List ℚ) (h : hist ≠ []) :
    ∃ c l24 l168, rawLagFeatures hist = some (c, l24, l168) ∧
      prepareFeatures s t hist = some
        { currentCount := (s.targetTransform c l24 l168).1
          lag24 := (s.targetTransform c l24 l168).2.1
          lag168 := (s.targetTransform c l24 l168).2.2
          hour := (s.timeTransform (hourOf t) (dayOfWeekOf t)).1
          dayOfWeek := (s.timeTransform (hourOf t) (dayOfWeekOf t)).2 } := by
  refine ⟨_, _, _, rawLagFeatures_of_ne_nil hist h, ?_⟩
  rw [prepareFeatures, rawLagFeatures_of_ne_nil hist h]

/-- Sequencing a list of succeeding computations succeeds. -/
theorem optionMapList_of_forall_some (f : α → Option β) (l : List α)
    (h : ∀ a ∈ l, ∃ b, f a = some b) : ∃ bs, optionMapList f l = some bs := by
  induction l with
  | nil => exact ⟨[], rfl⟩
  | cons a l ih =>
    obtain ⟨b, hb⟩ := h a (List.mem_cons_self a l)
    obtain ⟨bs, hbs⟩ := ih (fun x hx => h x (List.mem_cons_of_mem a hx))
    exact ⟨b :: bs, by rw [optionMapList, hb, hbs]⟩

/-- One step of the autoregressive loop succeeds on a nonempty context, and
its output is clamped at zero. -/
theorem forecastStep_of_ne_nil (svc : ModelService) (t : ℤ) (context : List ℚ)
    (h : context ≠ []) : ∃ v, forecastStep svc t context = some v ∧ 0 ≤ v := by
  obtain ⟨c, l24, l168, _, hpf⟩ := prepareFeatures_of_ne_nil svc.scalers t context h
  obtain ⟨fs, hfs⟩ := optionMapList_of_forall_some
    (fun j => seqFeatureAt svc.scalers t context j) (List.range seqLength)
    (fun j _ => by
      obtain ⟨c', l24', l168', _, hpf'⟩ :=
        prepareFeatures_of_ne_nil svc.scalers (t - ((seqLength : ℤ) - (j : ℤ))) context h
      exact ⟨_, hpf'⟩)
  refine ⟨max 0 (svc.scalers.targetInverse (svc.predict fs)), ?_, le_max_left 0 _⟩
  rw [forecastStep, hpf, hfs]

/-- Every value a successful step returns is non-negative (the clamp at
line 208 of `model_service.py`). -/
theorem forecastStep_nonneg (svc : ModelService) (t : ℤ) (context : List ℚ) (v : ℚ)
    (h : forecastStep svc t context = some v) : 0 ≤ v := by
  rw [forecastStep] at h
  cases h1 : prepareFeatures svc.scalers t context with
  | none => rw [h1] at h; cases h
  | some f =>
    rw [h1] at h
    cases h2 : optionMapList (fun j => seqFeatureAt svc.scalers t context j)
        (List.range seqLength) with
    | none => rw [h2] at h; cases h
    | some fs =>
      rw [h2] at h
      injection h with h
      rw [← h]
      exact le_max_left 0 _

/-- On a nonempty seed context the forecast loop succeeds; the emitted
timestamps are exactly the hour steps from the start index, and every emitted
load is non-negative. -/
theorem forecastAux_of_ne_nil (svc : ModelService) (ts : ℤ) :
    ∀ (n i : ℕ) (context : List ℚ), context ≠ [] →
    ∃ l, forecastAux svc ts n i context = some l ∧
      l.map ForecastPoint.timestamp
        = (List.range n).map (fun k => ts + ((i + k : ℕ) : ℤ)) ∧
      ∀ p ∈ l, 0 ≤ p.predictedLoad := by
  intro n
  induction n with
  | zero => exact fun i context _ => ⟨[], rfl, by simp, by simp⟩
  | succ n ih =>
    intro i context h
    obtain ⟨v, hv, hv0⟩ := forecastStep_of_ne_nil svc (ts + (i : ℤ)) context h
    obtain ⟨l, hl, hmap, hpos⟩ := ih (i + 1) (context ++ [v]) (by simp)
    refine ⟨⟨ts + (i : ℤ), v⟩ :: l, ?_, ?_, ?_⟩
    · simp only [forecastAux, hv, hl]
    · rw [List.map_cons, hmap, List.range_succ_eq_map, List.map_cons, List.map_map]
      congr 1
      refine List.map_congr_left fun k _ => ?_
      show ts + ((i + 1 + k : ℕ) : ℤ) = ts + ((i + (Nat.succ k) : ℕ) : ℤ)
      push_cast
      ring
    · intro p hp
      rcases List.mem_cons.mp hp with rfl | hp
      · exact hv0
      · exact hpos p hp

/-- Whatever the context, every point a successful forecast loop emits has a
non-negative load. -/
theorem forecastAux_nonneg (svc : ModelService) (ts : ℤ) :
    ∀ (n i : ℕ) (context : List ℚ) (l : List ForecastPoint),
      forecastAux svc ts n i context = some l → ∀ p ∈ l, 0 ≤ p.predictedLoad := by
  intro n
  induction n with
  | zero =>
    intro i context l hl p hp
    rw [forecastAux] at hl
    injection hl with hl
    subst hl
    cases hp
  | succ n ih =>
    intro i context l hl p hp
    rw [forecastAux] at hl
    cases hstep : forecastStep svc (ts + (i : ℤ)) context with
    | none => rw [hstep] at hl; cases hl
    | some v =>
      simp only [hstep] at hl
      cases haux : forecastAux svc ts n (i + 1) (context ++ [v]) with
      | none => simp only [haux] at hl; cases hl
      | some rest =>
        simp only [haux] at hl
        injection hl with hl
        subst hl
        rcases List.mem_cons.mp hp with rfl | hp
        · exact forecastStep_nonneg svc (ts + (i : ℤ)) context v hstep
        · exact ih (i + 1) (context ++ [v]) rest haux p hp

/-- On a nonempty forecast with a nonzero threshold, when the scale-up guard
holds, `get_recommendations` returns exactly this dictionary. -/
theorem getRecommendations_eq_scale_up (f : List ForecastPoint) (c t : ℚ)
    (hf : f ≠ []) (ht : t ≠ 0) (hbr : maxUtilizationOf f c ≥ t) :
    getRecommendations f c t = Except.ok
      { action := "scale_up"
        urgency := if maxUtilizationOf f c ≥ 95/100 then "high" else "medium"
        currentCapacity := c
        recommendedCapacity := ((pyInt (listMax (predictedLoads f) / t * (11/10)) : ℤ) : ℚ)
        capacityChange := ((pyInt (listMax (predictedLoads f) / t * (11/10)) : ℤ) : ℚ) - c
        capacityChangePercent :=
          if 0 < c then
            (((pyInt (listMax (predictedLoads f) / t * (11/10)) : ℤ) : ℚ) - c) / c * 100
          else 0
        metrics := ⟨listMax (predictedLoads f), listMean (predictedLoads f),
          listMin (predictedLoads f), maxUtilizationOf f c, avgUtilizationOf f c⟩
        peakHours :=
          (f.filter (fun p => p.predictedLoad ≥ listMax (predictedLoads f) * (9/10))).take 10
        message := generateMessage "scale_up"
          (if maxUtilizationOf f c ≥ 95/100 then "high" else "medium")
          (maxUtilizationOf f c)
          ((pyInt (listMax (predictedLoads f) / t * (11/10)) : ℤ) : ℚ) c } := by
  have hfe : f.isEmpty = false := by simpa [List.isEmpty_iff] using hf
  simp only [getRecommendations, hfe, Bool.false_eq_true, if_false, if_pos hbr, if_neg ht]

/-- On a nonempty forecast with a nonzero threshold, when the scale-up guard
fails but the scale-down guard holds, `get_recommendations` returns exactly
this dictionary. -/
theorem getRecommendations_eq_scale_down (f : List ForecastPoint) (c t : ℚ)
    (hf : f ≠ []) (ht : t ≠ 0) (hbr1 : ¬ maxUtilizationOf f c ≥ t)
    (hbr2 : avgUtilizationOf f c < 3/10) :
    getRecommendations f c t = Except.ok
      { action := "scale_down"
        urgency := "low"
        currentCapacity := c
        recommendedCapacity := ((pyInt (listMean (predictedLoads f) / t * (12/10)) : ℤ) : ℚ)
        capacityChange := ((pyInt (listMean (predictedLoads f) / t * (12/10)) : ℤ) : ℚ) - c
        capacityChangePercent :=
          if 0 < c then
            (((pyInt (listMean (predictedLoads f) / t * (12/10)) : ℤ) : ℚ) - c) / c * 100
          else 0
        metrics := ⟨listMax (predictedLoads f), listMean (predictedLoads f),
          listMin (predictedLoads f), maxUtilizationOf f c, avgUtilizationOf f c⟩
        peakHours :=
          (f.filter (fun p => p.predictedLoad ≥ listMax (predictedLoads f) * (9/10))).take 10
        message := generateMessage "scale_down" "low" (maxUtilizationOf f c)
          ((pyInt (listMean (predictedLoads f) / t * (12/10)) : ℤ) : ℚ) c } := by
  have hfe : f.isEmpty = false := by simpa [List.isEmpty_iff] using hf
  simp only [getRecommendations, hfe, Bool.false_eq_true, if_false, if_neg hbr1,
    if_pos hbr2, if_neg ht]

/-- On a nonempty forecast, when neither scaling guard holds,
`get_recommendations` returns exactly this dictionary (the maintain
branch). -/
theorem getRecommendations_eq_maintain (f : List ForecastPoint) (c t : ℚ)
    (hf : f ≠ []) (hbr1 : ¬ maxUtilizationOf f c ≥ t)
    (hbr2 : ¬ avgUtilizationOf f c < 3/10) :
    getRecommendations f c t = Except.ok
      { action := "maintain"
        urgency := "low"
        currentCapacity := c
        recommendedCapacity := c
        capacityChange := c - c
        capacityChangePercent := if 0 < c then (c - c) / c * 100 else 0
        metrics := ⟨listMax (predictedLoads f), listMean (predictedLoads f),
          listMin (predictedLoads f), maxUtilizationOf f c, avgUtilizationOf f c⟩
        peakHours :=
          (f.filter (fun p => p.predictedLoad ≥ listMax (predictedLoads f) * (9/10))).take 10
        message := generateMessage "maintain" "low" (maxUtilizationOf f c) c c } := by
  have hfe : f.isEmpty = false := by simpa [List.isEmpty_iff] using hf
  simp only [getRecommendations, hfe, Bool.false_eq_true, if_false, if_neg hbr1, if_neg hbr2]

/-! ## Claims about `model_service.py` -/

/-- C3: for every `hours_ahead = H ≥ 1` and every resolved start timestamp,
`ModelService.forecast` (with the model loaded and a nonempty seeded history)
returns a forecast of exactly `H` points whose timestamps are the consecutive
hours `ts, ts+1, …, ts+H-1` — strictly increasing at exactly 1-hour steps,
the first equal to the resolved start timestamp — together with `hours_ahead`
and the resolved start timestamp. -/
theorem forecast_horizon_shape (svc : ModelService) (H : ℕ) (hist : List ℚ) (ts : ℤ)
    (hload : svc.isModelLoaded = true) (hhist : hist ≠ []) (hH : 1 ≤ H) :
    (svc.forecast H hist ts).toOption.map (fun r =>
      (r.forecast.map ForecastPoint.timestamp, r.forecast.length,
        r.forecast.head?.map ForecastPoint.timestamp, r.hoursAhead, r.startTimestamp))
      = some ((List.range H).map (fun (k : ℕ) => ts + (k : ℤ)), H, some ts, H, ts) := by
  obtain ⟨l, hl, hmap, _⟩ := forecastAux_of_ne_nil svc ts H 0 hist hhist
  have hform : svc.forecast H hist ts = Except.ok ⟨l, H, ts⟩ := by
    simp [ModelService.forecast, hload, hl]
  have hmap' : l.map ForecastPoint.timestamp
      = (List.range H).map (fun (k : ℕ) => ts + (k : ℤ)) := by
    rw [hmap]
    exact List.map_congr_left fun k _ => by push_cast; ring
  have hlen : l.length = H := by
    have := congrArg List.length hmap'
    simpa using this
  have hhead : l.head?.map ForecastPoint.timestamp = some ts := by
    have hh := congrArg List.head? hmap'
    rw [List.head?_map] at hh
    cases H with
    | zero => exact absurd hH (by norm_num)
    | succ n =>
      rw [List.range_succ_eq_map] at hh
      simpa using hh
  rw [hform]
  simp [Except.toOption, hmap', hlen, hhead]

/-- Witness for C3 at a concrete loaded service, horizon 2, history `[1]`,
start hour 0. -/
theorem forecast_horizon_shape_witness :
    (zeroService.forecast 2 [1] 0).toOption.map (fun r =>
      (r.forecast.map ForecastPoint.timestamp, r.forecast.length,
        r.forecast.head?.map ForecastPoint.timestamp, r.hoursAhead, r.startTimestamp))
      = some ((List.range 2).map (fun (k : ℕ) => (0 : ℤ) + (k : ℤ)), 2, some 0, 2, 0) :=
  forecast_horizon_shape zeroService 2 [1] 0 rfl (by simp) (by norm_num)

/-- C6: every `predicted_load` in a returned forecast is non-negative, for
every horizon and every model output (including negative normalized
predictions): the inverse-transformed prediction is clamped at zero before it
is emitted and appended to the context. -/
theorem forecast_nonneg (svc : ModelService) (H : ℕ) (hist : List ℚ) (ts : ℤ)
    (r : ForecastResult) (p : ForecastPoint)
    (hr : svc.forecast H hist ts = Except.ok r) (hp : p ∈ r.forecast) :
    0 ≤ p.predictedLoad := by
  rw [ModelService.forecast] at hr
  by_cases hload : svc.isModelLoaded = false
  · simp [hload] at hr
  · rw [if_neg hload] at hr
    cases haux : forecastAux svc ts H 0 hist with
    | none => rw [haux] at hr; cases hr
    | some pts =>
      simp only [haux] at hr
      injection hr with hr
      subst hr
      exact forecastAux_nonneg svc ts H 0 hist pts haux p hp

/-- Witness for C6: a service whose model predicts the negative normalized
value `-5` still emits the clamped load `0`. -/
theorem forecast_nonneg_witness :
    (0 : ℚ) ≤ (ForecastPoint.mk 0 0).predictedLoad :=
  forecast_nonneg negService 1 [1] 0 ⟨[⟨0, 0⟩], 1, 0⟩ ⟨0, 0⟩ rfl (by simp)

/-- C4 (counterexample): on the concrete context `0, 1, …, 48`, the feature
vector the forecast loop builds for window position 0 differs from the
per-position sliding-window re-derivation the claim describes: the source
passes the entire context to `_prepare_features` at every position, so
position 0 receives the final point's lag values instead of its own. -/
theorem seqFeature_window_counterexample :
    seqFeatureAt idScalers 200 ((List.range 49).map (fun (n : ℕ) => (n : ℚ))) 0
      ≠ slidingWindowFeatureAt idScalers 200 ((List.range 49).map (fun (n : ℕ) => (n : ℚ))) 0 := by
  decide

/-- C4 (amended): in each iteration every one of the 48 window positions is
encoded into its own FeatureVector, but only the time features are re-derived
from the position's timestamp; the magnitude features (`current_count`,
`lag_24`, `lag_168`) are computed from the full current context at every
position, so the final point's lag values are shared by all 48 positions. -/
theorem seqFeature_shared_lags (s : Scalers) (t : ℤ) (context : List ℚ)
    (h : context ≠ []) (j1 j2 j : ℕ) (_hj1 : j1 < seqLength) (_hj2 : j2 < seqLength)
    (_hj : j < seqLength) :
    (seqFeatureAt s t context j1).map featLags
        = (seqFeatureAt s t context j2).map featLags ∧
    (seqFeatureAt s t context j).map featTime
        = some (s.timeTransform (hourOf (t - ((seqLength : ℤ) - (j : ℤ))))
            (dayOfWeekOf (t - ((seqLength : ℤ) - (j : ℤ))))) := by
  constructor
  · obtain ⟨c, l24, l168, hraw1, hpf1⟩ :=
      prepareFeatures_of_ne_nil s (t - ((seqLength : ℤ) - (j1 : ℤ))) context h
    obtain ⟨c', l24', l168', hraw2, hpf2⟩ :=
      prepareFeatures_of_ne_nil s (t - ((seqLength : ℤ) - (j2 : ℤ))) context h
    have e := hraw1.symm.trans hraw2
    injection e with e
    injection e with e1 e
    injection e with e2 e3
    subst e1
    subst e2
    subst e3
    rw [seqFeatureAt, hpf1, seqFeatureAt, hpf2]
    simp [featLags]
  · obtain ⟨c, l24, l168, _, hpf⟩ :=
      prepareFeatures_of_ne_nil s (t - ((seqLength : ℤ) - (j : ℤ))) context h
    rw [seqFeatureAt, hpf]
    simp [featTime]

/-- Witness for the amended C4 at the identity scalers, context `[1]`, and
positions 0, 47 and 5. -/
theorem seqFeature_shared_lags_witness :
    (seqFeatureAt idScalers 200 [1] 0).map featLags
        = (seqFeatureAt idScalers 200 [1] 47).map featLags ∧
    (seqFeatureAt idScalers 200 [1] 5).map featTime
        = some (idScalers.timeTransform (hourOf (200 - ((seqLength : ℤ) - ((5 : ℕ) : ℤ))))
            (dayOfWeekOf (200 - ((seqLength : ℤ) - ((5 : ℕ) : ℤ))))) :=
  seqFeature_shared_lags idScalers 200 [1] (by simp) 0 47 5
    (by norm_num [seqLength]) (by norm_num [seqLength]) (by norm_num [seqLength])

/-- C5 (counterexample): on the two-point history `[5, 7]` (shorter than 24
and than 168), both lag fallbacks return `7`, the most recent point — not the
earliest available point `5` that the claim asserts. -/
theorem lag_fallback_counterexample :
    (rawLagFeatures [(5 : ℚ), 7]).map (fun x => x.2.1) = some 7 ∧
    (rawLagFeatures [(5 : ℚ), 7]).map (fun x => x.2.2) = some 7 ∧
    ([(5 : ℚ), 7]).head? = some 5 ∧ (7 : ℚ) ≠ 5 := by
  refine ⟨rfl, rfl, rfl, by norm_num⟩

/-- C5 (amended): for every nonempty raw history shorter than 24
(respectively 168) points, the feature encoder's `lag_24` (respectively
`lag_168`) falls back to the most recent point of the history
(`historical_counts[-1]`), not the earliest. -/
theorem lag_fallback_most_recent (hist : List ℚ) (h : hist ≠ []) :
    (hist.length < 24 →
      (rawLagFeatures hist).map (fun x => x.2.1) = some (hist.getLast h)) ∧
    (hist.length < 168 →
      (rawLagFeatures hist).map (fun x => x.2.2) = some (hist.getLast h)) := by
  constructor
  · intro h24
    rw [rawLagFeatures_of_ne_nil hist h]
    simp [show ¬ 24 ≤ hist.length from by omega]
  · intro h168
    rw [rawLagFeatures_of_ne_nil hist h]
    simp [show ¬ 168 ≤ hist.length from by omega]

/-- Witness for the amended C5 on the history `[5, 7]`. -/
theorem lag_fallback_most_recent_witness :
    (rawLagFeatures [(5 : ℚ), 7]).map (fun x => x.2.1)
        = some (([(5 : ℚ), 7]).getLast (by simp)) ∧
    (rawLagFeatures [(5 : ℚ), 7]).map (fun x => x.2.2)
        = some (([(5 : ℚ), 7]).getLast (by simp)) :=
  ⟨(lag_fallback_most_recent [(5 : ℚ), 7] (by simp)).1 (by norm_num),
   (lag_fallback_most_recent [(5 : ℚ), 7] (by simp)).2 (by norm_num)⟩

/-! ## Claims about `capacity_planner.py` -/

/-- C1: for every nonempty forecast and positive capacity (and positive
threshold), `get_recommendations` evaluates the rules in order with first
match winning: `max_utilization ≥ scaling_threshold` (inclusive) gives
`scale_up` with urgency `high` iff `max_utilization ≥ 0.95` and `medium`
otherwise; else `avg_utilization < 0.3` gives `scale_down` with urgency
`low`; else `maintain` with urgency `low` and
`recommended_capacity = current_capacity`. -/
theorem decision_rule (f : List ForecastPoint) (c t : ℚ)
    (hf : f ≠ []) (_hc : 0 < c) (ht : 0 < t) :
    (maxUtilizationOf f c ≥ t →
      (getRecommendations f c t).toOption.map (fun r => (r.action, r.urgency))
        = some ("scale_up",
            if maxUtilizationOf f c ≥ 95/100 then "high" else "medium")) ∧
    (¬ maxUtilizationOf f c ≥ t → avgUtilizationOf f c < 3/10 →
      (getRecommendations f c t).toOption.map (fun r => (r.action, r.urgency))
        = some ("scale_down", "low")) ∧
    (¬ maxUtilizationOf f c ≥ t → ¬ avgUtilizationOf f c < 3/10 →
      (getRecommendations f c t).toOption.map
          (fun r => (r.action, r.urgency, r.recommendedCapacity))
        = some ("maintain", "low", c)) := by
  refine ⟨fun hbr => ?_, fun hbr1 hbr2 => ?_, fun hbr1 hbr2 => ?_⟩
  · rw [getRecommendations_eq_scale_up f c t hf (ne_of_gt ht) hbr]
    simp [Except.toOption]
  · rw [getRecommendations_eq_scale_down f c t hf (ne_of_gt ht) hbr1 hbr2]
    simp [Except.toOption]
  · rw [getRecommendations_eq_maintain f c t hf hbr1 hbr2]
    simp [Except.toOption]

/-- Witness for C1 at the decision-rule boundary: a single point of load
4000 against capacity 5000 has utilization exactly 0.8 = threshold, and the
inclusive comparison yields scale_up (with urgency medium). -/
theorem decision_rule_witness :
    (getRecommendations [⟨0, 4000⟩] 5000 (4/5)).toOption.map
        (fun r => (r.action, r.urgency))
      = some ("scale_up",
          if maxUtilizationOf [⟨0, 4000⟩] 5000 ≥ 95/100 then "high" else "medium") :=
  (decision_rule [⟨0, 4000⟩] 5000 (4/5) (by simp) (by norm_num) (by norm_num)).1
    (by norm_num [maxUtilizationOf, predictedLoads, listMax])

/-- C2 (counterexample): with the one-point forecast `[10]`, capacity 10 and
threshold 0.8, the scale-up branch is taken and the source returns
`int(10 / 0.8 * 1.1) = int(13.75) = 13`, while the claimed ceiling is 14:
`recommended_capacity` is truncated, not rounded up. -/
theorem recommended_capacity_ceiling_counterexample :
    (getRecommendations [⟨0, 10⟩] 10 (4/5)).toOption.map
        (fun r => (r.action, r.recommendedCapacity)) = some ("scale_up", 13) ∧
    (⌈(10 : ℚ) / (4/5) * (11/10)⌉ : ℤ) = 14 := by
  constructor
  · have hbr : maxUtilizationOf [⟨0, 10⟩] 10 ≥ 4/5 := by
      norm_num [maxUtilizationOf, predictedLoads, listMax]
    have harg : pyInt (listMax (predictedLoads [(⟨0, 10⟩ : ForecastPoint)]) / (4/5) * (11/10))
        = 13 := by
      rw [show listMax (predictedLoads [(⟨0, 10⟩ : ForecastPoint)]) / ((4 : ℚ)/5) * (11/10)
            = 55/4 by norm_num [listMax, predictedLoads]]
      rw [pyInt_eq_floor _ (by norm_num)]
      norm_num
    rw [getRecommendations_eq_scale_up [⟨0, 10⟩] 10 (4/5) (by simp) (by norm_num) hbr]
    simp [Except.toOption, harg]
  · rw [Int.ceil_eq_iff]
    norm_num

/-- C2 (amended): in the scale-up branch `recommended_capacity` is the
truncation (Python `int`, equal to the floor on non-negative values) of
`max_load / scaling_threshold * 1.1`, and in the scale-down branch the
truncation of `avg_load / scaling_threshold * 1.2` — not the ceiling. -/
theorem recommended_capacity_truncation (f : List ForecastPoint) (c t : ℚ)
    (hf : f ≠ []) (ht : 0 < t) :
    (maxUtilizationOf f c ≥ t →
      (getRecommendations f c t).toOption.map Recommendation.recommendedCapacity
        = some ((pyInt (listMax (predictedLoads f) / t * (11/10)) : ℤ) : ℚ)) ∧
    (¬ maxUtilizationOf f c ≥ t → avgUtilizationOf f c < 3/10 →
      (getRecommendations f c t).toOption.map Recommendation.recommendedCapacity
        = some ((pyInt (listMean (predictedLoads f) / t * (12/10)) : ℤ) : ℚ)) ∧
    (0 ≤ listMax (predictedLoads f) →
      pyInt (listMax (predictedLoads f) / t * (11/10))
        = ⌊listMax (predictedLoads f) / t * (11/10)⌋) ∧
    (0 ≤ listMean (predictedLoads f) →
      pyInt (listMean (predictedLoads f) / t * (12/10))
        = ⌊listMean (predictedLoads f) / t * (12/10)⌋) := by
  refine ⟨fun hbr => ?_, fun hbr1 hbr2 => ?_, fun hM => ?_, fun hA => ?_⟩
  · rw [getRecommendations_eq_scale_up f c t hf (ne_of_gt ht) hbr]
    simp [Except.toOption]
  · rw [getRecommendations_eq_scale_down f c t hf (ne_of_gt ht) hbr1 hbr2]
    simp [Except.toOption]
  · exact pyInt_eq_floor _ (mul_nonneg (div_nonneg hM ht.le) (by norm_num))
  · exact pyInt_eq_floor _ (mul_nonneg (div_nonneg hA ht.le) (by norm_num))

/-- Witness for the amended C2 at the same concrete input as the
counterexample. -/
theorem recommended_capacity_truncation_witness :
    ((getRecommendations [⟨0, 10⟩] 10 (4/5)).toOption.map Recommendation.recommendedCapacity
      = some ((pyInt (listMax (predictedLoads [⟨0, 10⟩]) / (4/5) * (11/10)) : ℤ) : ℚ)) ∧
    (pyInt (listMax (predictedLoads [⟨0, 10⟩]) / (4/5) * (11/10))
      = ⌊listMax (predictedLoads [⟨0, 10⟩]) / (4/5) * (11/10)⌋) :=
  ⟨(recommended_capacity_truncation [⟨0, 10⟩] 10 (4/5) (by simp) (by norm_num)).1
      (by norm_num [maxUtilizationOf, predictedLoads, listMax]),
   (recommended_capacity_truncation [⟨0, 10⟩] 10 (4/5) (by simp) (by norm_num)).2.2.1
      (by norm_num [predictedLoads, listMax])⟩

/-- C7 (counterexample): `analyze` with `current_capacity = 0` raises a
`ZeroDivisionError` at the unguarded per-point utilization division (line 109
of `capacity_planner.py`) instead of reporting utilizations as 0. -/
theorem analyze_zero_capacity_counterexample :
    analyze [⟨0, 100⟩] 0 (4/5) = Except.error "ZeroDivisionError" := rfl

/-- C7 (amended): for every nonempty forecast, `current_capacity ≤ 0` and
positive threshold, `get_recommendations` reports `max_utilization` and
`avg_utilization` as 0 (guarded division), resolves the action through the
scale-down branch, and reports `capacity_change_percent = 0`; `analyze`, by
contrast, does not guard its per-point utilization division and raises
`ZeroDivisionError` when `current_capacity = 0`. -/
theorem guarded_zero_capacity (f : List ForecastPoint) (c t : ℚ)
    (hf : f ≠ []) (hc : c ≤ 0) (ht : 0 < t) :
    (getRecommendations f c t).toOption.map
        (fun r => (r.metrics.maxUtilization, r.metrics.avgUtilization, r.action,
          r.capacityChangePercent))
      = some (0, 0, "scale_down", 0) ∧
    analyze f 0 t = Except.error "ZeroDivisionError" := by
  have hmu : maxUtilizationOf f c = 0 := by
    rw [maxUtilizationOf, if_neg (not_lt.mpr hc)]
  have hau : avgUtilizationOf f c = 0 := by
    rw [avgUtilizationOf, if_neg (not_lt.mpr hc)]
  constructor
  · have hbr1 : ¬ maxUtilizationOf f c ≥ t := by rw [hmu]; exact not_le.mpr ht
    have hbr2 : avgUtilizationOf f c < 3/10 := by rw [hau]; norm_num
    rw [getRecommendations_eq_scale_down f c t hf (ne_of_gt ht) hbr1 hbr2]
    simp [Except.toOption, hmu, hau, not_lt.mpr hc]
  · have hfe : f.isEmpty = false := by simpa [List.isEmpty_iff] using hf
    simp [analyze, hfe]

/-- Witness for the amended C7 at a one-point forecast and capacity 0. -/
theorem guarded_zero_capacity_witness :
    (getRecommendations [⟨0, 100⟩] 0 (4/5)).toOption.map
        (fun r => (r.metrics.maxUtilization, r.metrics.avgUtilization, r.action,
          r.capacityChangePercent))
      = some (0, 0, "scale_down", 0) ∧
    analyze [⟨0, 100⟩] 0 (4/5) = Except.error "ZeroDivisionError" :=
  guarded_zero_capacity [⟨0, 100⟩] 0 (4/5) (by simp) le_rfl (by norm_num)

/-- C8: for every forecast with positive maximal load, mean load at most the
maximal load, and threshold in `(0, 1]`, the generated scenarios satisfy
`conservative ≥ balanced ≥ aggressive` in capacity. -/
theorem scenarios_monotone (f : List ForecastPoint) (c t : ℚ) (s : Scenarios)
    (hf : f ≠ []) (hmax : 0 < listMax (predictedLoads f))
    (_havg : listMean (predictedLoads f) ≤ listMax (predictedLoads f))
    (ht0 : 0 < t) (_ht1 : t ≤ 1)
    (hs : generateScenarios f c t = Except.ok s) :
    s.balanced.capacity ≤ s.conservative.capacity ∧
    s.aggressive.capacity ≤ s.balanced.capacity := by
  have hfe : f.isEmpty = false := by simpa [List.isEmpty_iff] using hf
  rw [generateScenarios] at hs
  simp only [hfe, Bool.false_eq_true, if_false, if_neg (ne_of_gt ht0)] at hs
  injection hs with hs
  subst hs
  have hMt : 0 < listMax (predictedLoads f) / t := div_pos hmax ht0
  constructor
  · show pyInt (listMax (predictedLoads f) / t * (11/10))
        ≤ pyInt (listMax (predictedLoads f) / t * (12/10))
    exact pyInt_mono _ _ (mul_nonneg hMt.le (by norm_num)) (by linarith)
  · show pyInt (listMax (predictedLoads f) / t)
        ≤ pyInt (listMax (predictedLoads f) / t * (11/10))
    exact pyInt_mono _ _ hMt.le (by linarith)

/-- Witness for C8: the concrete scenario table for the one-point forecast
`[10]` at threshold 0.5. -/
theorem scenarios_monotone_witness :
    (Scenarios.mk ⟨24, "20% buffer above peak load", "high"⟩
        ⟨22, "10% buffer above peak load", "medium"⟩
        ⟨20, "Exact capacity for peak load", "low"⟩
        ⟨30, "Capacity based on average load", "low"⟩).balanced.capacity
      ≤ (Scenarios.mk ⟨24, "20% buffer above peak load", "high"⟩
        ⟨22, "10% buffer above peak load", "medium"⟩
        ⟨20, "Exact capacity for peak load", "low"⟩
        ⟨30, "Capacity based on average load", "low"⟩).conservative.capacity ∧
    (Scenarios.mk ⟨24, "20% buffer above peak load", "high"⟩
        ⟨22, "10% buffer above peak load", "medium"⟩
        ⟨20, "Exact capacity for peak load", "low"⟩
        ⟨30, "Capacity based on average load", "low"⟩).aggressive.capacity
      ≤ (Scenarios.mk ⟨24, "20% buffer above peak load", "high"⟩
        ⟨22, "10% buffer above peak load", "medium"⟩
        ⟨20, "Exact capacity for peak load", "low"⟩
        ⟨30, "Capacity based on average load", "low"⟩).balanced.capacity :=
  scenarios_monotone [⟨0, 10⟩] 10 (1/2) _ (by simp)
    (by norm_num [listMax, predictedLoads])
    (by norm_num [listMax, listMean, predictedLoads])
    (by norm_num) (by norm_num)
    (by
      have e1 : pyInt (listMax (predictedLoads [(⟨0, 10⟩ : ForecastPoint)]) / (1/2) * (12/10))
          = 24 := by
        rw [show listMax (predictedLoads [(⟨0, 10⟩ : ForecastPoint)]) / ((1 : ℚ)/2) * (12/10)
              = 24 by norm_num [listMax, predictedLoads]]
        rw [pyInt_eq_floor _ (by norm_num)]
        norm_num
      have e2 : pyInt (listMax (predictedLoads [(⟨0, 10⟩ : ForecastPoint)]) / (1/2) * (11/10))
          = 22 := by
        rw [show listMax (predictedLoads [(⟨0, 10⟩ : ForecastPoint)]) / ((1 : ℚ)/2) * (11/10)
              = 22 by norm_num [listMax, predictedLoads]]
        rw [pyInt_eq_floor _ (by norm_num)]
        norm_num
      have e3 : pyInt (listMax (predictedLoads [(⟨0, 10⟩ : ForecastPoint)]) / (1/2)) = 20 := by
        rw [show listMax (predictedLoads [(⟨0, 10⟩ : ForecastPoint)]) / ((1 : ℚ)/2)
              = 20 by norm_num [listMax, predictedLoads]]
        rw [pyInt_eq_floor _ (by norm_num)]
        norm_num
      have e4 : pyInt (listMean (predictedLoads [(⟨0, 10⟩ : ForecastPoint)]) / (1/2) * (15/10))
          = 30 := by
        rw [show listMean (predictedLoads [(⟨0, 10⟩ : ForecastPoint)]) / ((1 : ℚ)/2) * (15/10)
              = 30 by norm_num [listMean, predictedLoads]]
        rw [pyInt_eq_floor _ (by norm_num)]
        norm_num
      have hfe : ([(⟨0, 10⟩ : ForecastPoint)]).isEmpty = false := rfl
      rw [generateScenarios]
      simp only [hfe, Bool.false_eq_true, if_false,
        if_neg (show ((1 : ℚ)/2) ≠ 0 by norm_num), e1, e2, e3, e4])

/-- Every risk rank is at most the rank of `critical`. -/
theorem riskRank_le_three (s : String) : riskRank s ≤ 3 := by
  rw [riskRank]
  split_ifs <;> norm_num

/-- With positive total hours, the guarded percentage definitions in
`_assess_risk` reduce to plain fractions. -/
theorem assessRisk_pos (cH oH T : ℕ) (hT : 0 < T) :
    assessRisk cH oH T =
      (if (cH : ℚ)/T > 1/10 then "critical"
       else if (oH : ℚ)/T > 2/10 then "high"
       else if (oH : ℚ)/T > 1/20 then "medium"
       else "low") := by
  simp only [assessRisk, if_pos hT]

/-- C9: for positive total hours, increasing `critical_hours` while holding
the total and `over_capacity_hours` fixed never decreases the assessed risk
level under the ordering low < medium < high < critical. -/
theorem assess_risk_monotone (c1 c2 o T : ℕ) (hT : 0 < T) (hc : c1 ≤ c2) :
    riskRank (assessRisk c1 o T) ≤ riskRank (assessRisk c2 o T) := by
  by_cases h2 : ((c2 : ℚ)) / T > 1/10
  · have e2 : assessRisk c2 o T = "critical" := by
      rw [assessRisk_pos c2 o T hT, if_pos h2]
    rw [e2]
    simpa [riskRank] using riskRank_le_three (assessRisk c1 o T)
  · have h1 : ¬ ((c1 : ℚ)) / T > 1/10 := by
      intro h
      refine h2 (lt_of_lt_of_le h ?_)
      gcongr
    have e : assessRisk c1 o T = assessRisk c2 o T := by
      rw [assessRisk_pos c1 o T hT, assessRisk_pos c2 o T hT, if_neg h1, if_neg h2]
    rw [e]

/-- Witness for C9 at critical-hour counts 0 ≤ 2 out of 10 hours. -/
theorem assess_risk_monotone_witness :
    riskRank (assessRisk 0 1 10) ≤ riskRank (assessRisk 2 1 10) :=
  assess_risk_monotone 0 2 1 10 (by norm_num) (by norm_num)

/-- C10: `get_recommendations` returns the `InvalidInput` error dictionary
(and no recommendation) exactly when the forecast is empty; on every
nonempty forecast (with a positive threshold) it returns a recommendation
dictionary, whose type carries action, urgency, the capacities, metrics,
peak hours and the message. -/
theorem error_iff_empty_forecast (f : List ForecastPoint) (c t : ℚ) (ht : 0 < t) :
    (f = [] → getRecommendations f c t = Except.error "No forecast data provided") ∧
    (f ≠ [] → (getRecommendations f c t).toOption.isSome = true) := by
  constructor
  · rintro rfl
    rfl
  · intro hf
    by_cases hbr : maxUtilizationOf f c ≥ t
    · rw [getRecommendations_eq_scale_up f c t hf (ne_of_gt ht) hbr]
      rfl
    · by_cases hbr2 : avgUtilizationOf f c < 3/10
      · rw [getRecommendations_eq_scale_down f c t hf (ne_of_gt ht) hbr hbr2]
        rfl
      · rw [getRecommendations_eq_maintain f c t hf hbr hbr2]
        rfl

/-- Witness for C10: the empty forecast yields the error dictionary; a
one-point forecast yields a recommendation. -/
theorem error_iff_empty_forecast_witness :
    (getRecommendations ([] : List ForecastPoint) 5000 (4/5)
        = Except.error "No forecast data provided") ∧
    ((getRecommendations [⟨0, 100⟩] 5000 (4/5)).toOption.isSome = true) :=
  ⟨(error_iff_empty_forecast [] 5000 (4/5) (by norm_num)).1 rfl,
   (error_iff_empty_forecast [⟨0, 100⟩] 5000 (4/5) (by norm_num)).2 (by simp)⟩

end CapacityPlanning
